import Mathlib

deriving instance DecidableEq for Except

/-!
Shallow embedding of `src/jcsfs/jcsfs.py` (class `JCSFs`, a FUSE overlay
of a local cache directory over a remote SFTP tree).

Filesystems are modelled as association lists from path strings to nodes
(regular files with byte content and stat attributes, or directories).
The mutable program state (`SysState`) carries the local filesystem, the
remote filesystem, the lazily-created SFTP handle (`none` before the
first `__getSFTPClient` call, mirroring `self.sftp = None` in
`__init__`), a health field describing how remote calls behave
(succeeding, failing with a connection-level `OSError`, or failing with
a non-`OSError` `SSHException`), and counters of remote operations
performed (file transfers, stat calls, listdir calls).

Fallible Python code is modelled with `Except FsError`; the error
constructors record Python's exception taxonomy as far as the program
distinguishes it.  In Python 3 `IOError` is an alias of `OSError`, so a
connection-level socket failure (`paramiko`'s `NoValidConnectionsError`
derives from `socket.error`, an `OSError`) is caught by an
`except IOError` clause exactly like a file-not-found; `SSHException`
is not an `OSError` and is not caught.  `FsError.isIOError` records
this classification.
-/

namespace JCSFs

/-- The stat fields the program extracts in `getattr`
(`st_atime`, `st_gid`, `st_mode`, `st_mtime`, `st_size`, `st_uid`). -/
structure Attributes where
  st_atime : Nat
  st_gid : Nat
  st_mode : Nat
  st_mtime : Nat
  st_size : Nat
  st_uid : Nat
deriving DecidableEq

/-- A filesystem node: a regular file (byte content plus stat data) or a directory. -/
inductive Node where
  | file (content : List Nat) (attrs : Attributes)
  | dir (attrs : Attributes)
deriving DecidableEq

def attrsOf : Node → Attributes
  | .file _ a => a
  | .dir a => a

/-- Stat data for a directory created by `os.makedirs` (mode 0o40755). -/
def defaultDirAttrs : Attributes := ⟨0, 0, 16877, 0, 0, 0⟩

/-- Stat data for a regular file freshly written with content `c` (mode 0o100644). -/
def mkFileAttrs (c : List Nat) : Attributes := ⟨0, 0, 33188, 0, c.length, 0⟩

/-- A filesystem: an association list from absolute path strings to nodes. -/
structure FileSystem where
  entries : List (String × Node)
deriving DecidableEq

def FileSystem.lookup (fs : FileSystem) (p : String) : Option Node :=
  (fs.entries.find? (fun e => e.1 == p)).map (fun e => e.2)

/-- `os.path.exists` / `os.path.lexists` on this model. -/
def FileSystem.pathExists (fs : FileSystem) (p : String) : Bool :=
  (fs.lookup p).isSome

/-- Whether a directory sits at `p`. -/
def FileSystem.isDirAt (fs : FileSystem) (p : String) : Bool :=
  match fs.lookup p with
  | some (Node.dir _) => true
  | _ => false

/-- `os.lstat`: the stat data of the node at `p`, when it exists. -/
def FileSystem.lstat (fs : FileSystem) (p : String) : Option Attributes :=
  (fs.lookup p).map attrsOf

/-- The byte content of the regular file at `p`, when one exists. -/
def FileSystem.lookupContent (fs : FileSystem) (p : String) : Option (List Nat) :=
  match fs.lookup p with
  | some (Node.file c _) => some c
  | _ => none

/-- Create or overwrite the regular file at `p`. -/
def FileSystem.setFile (fs : FileSystem) (p : String) (c : List Nat) (a : Attributes) :
    FileSystem :=
  ⟨(p, Node.file c a) :: fs.entries.filter (fun e => ¬(e.1 == p))⟩

/-- `os.mkdir` tolerating an existing node (used only via `makedirs` below,
which the program guards with an existence check). -/
def FileSystem.mkdirAt (fs : FileSystem) (p : String) : FileSystem :=
  if fs.pathExists p then fs else ⟨(p, Node.dir defaultDirAttrs) :: fs.entries⟩

/-- Remove the node at `p` (`os.unlink` / `os.rmdir` effect). -/
def FileSystem.remove (fs : FileSystem) (p : String) : FileSystem :=
  ⟨fs.entries.filter (fun e => ¬(e.1 == p))⟩

/-- `s.endswith(t)`, computed on the character lists. -/
def strEndsWith (s t : String) : Bool :=
  t.data.isSuffixOf s.data

/-- The name of `k` as a direct child of directory `p`, when it is one. -/
def childName (p k : String) : Option String :=
  let pre := if strEndsWith p "/" then p.data else p.data ++ ['/']
  if pre.isPrefixOf k.data then
    let rest := k.data.drop pre.length
    if rest ≠ [] ∧ ¬(rest.contains '/') then some ⟨rest⟩ else none
  else none

/-- `os.listdir` / `sftp.listdir`: names of the direct children of `p`. -/
def FileSystem.listdir (fs : FileSystem) (p : String) : List String :=
  (fs.entries.filterMap (fun e => childName p e.1)).dedup

/-- Everything before the last path separator (`os.path.dirname`, up to the
root-slash corner case which the program never exercises). -/
def dirname (p : String) : String :=
  let rest := p.data.reverse.dropWhile (fun c => ¬(c == '/'))
  ⟨(rest.drop 1).reverse⟩

def mkdirsAux : Nat → FileSystem → String → FileSystem
  | 0, fs, _ => fs
  | n + 1, fs, p => if p = "" then fs else mkdirsAux n (fs.mkdirAt p) (dirname p)

/-- `os.makedirs`: create `p` and all of its missing ancestors.  The fuel
`p.data.length + 1` dominates the number of path components. -/
def FileSystem.makedirs (fs : FileSystem) (p : String) : FileSystem :=
  mkdirsAux (p.data.length + 1) fs p

/-- Python's `str.lstrip("/")`: drop every leading slash. -/
def lstripSlashes (p : String) : String :=
  ⟨p.data.dropWhile (fun c => c == '/')⟩

/-- `os.path.join(root, p)` for a `p` with no leading slash. -/
def pathJoin (root p : String) : String :=
  if root = "" then p
  else if strEndsWith root "/" then root ++ p
  else root ++ "/" ++ p

/-- The configuration the engine reads: `config['datadir']` (local cache
root) and `config['ssh'].get("path", "")` (remote root). -/
structure Config where
  datadir : String
  sshPath : String

/-- `JCSFs.__getLocalPath`: join the virtual path to the cache root. -/
def getLocalPath (cfg : Config) (path : String) : String :=
  pathJoin cfg.datadir (lstripSlashes path)

/-- `JCSFs.__getPath` with `root = None`: join the virtual path to the remote root. -/
def getPath (cfg : Config) (path : String) : String :=
  pathJoin cfg.sshPath (lstripSlashes path)

/-- How remote calls behave in a given state.  `connFail` stands for a
connection-level failure raised as an `OSError` (= `IOError` in Python 3,
e.g. `NoValidConnectionsError`, `ConnectionResetError`, `socket.timeout`);
`sshFail` stands for a `paramiko.SSHException` (not an `OSError`,
e.g. an authentication failure). -/
inductive RemoteHealth where
  | ok
  | connFail
  | sshFail
deriving DecidableEq

/-- Python exception kinds as far as the program distinguishes them. -/
inductive FsError where
  /-- `FuseOSError(ENOENT)`, the not-found signal returned to FUSE. -/
  | enoent
  /-- A local filesystem `OSError` (`FileNotFoundError`, `IsADirectoryError`, ...). -/
  | localIOError
  /-- An `IOError` raised by a paramiko SFTP call on a missing remote object. -/
  | remoteIOError
  /-- A connection-level `OSError` (still an `IOError` for `except IOError`). -/
  | connError
  /-- A `paramiko.SSHException` (not an `OSError`). -/
  | sshError
  /-- `AttributeError`, e.g. calling a method on `None`. -/
  | attributeError
deriving DecidableEq

/-- Whether the exception is caught by Python 3's `except IOError`
(`IOError` is an alias of `OSError`). -/
def FsError.isIOError : FsError → Bool
  | .localIOError => true
  | .remoteIOError => true
  | .connError => true
  | _ => false

/-- The mutable state of one `JCSFs` instance together with the two
filesystems it touches and counters of the remote operations issued. -/
structure SysState where
  localFS : FileSystem
  remoteFS : FileSystem
  sftp : Option Unit
  health : RemoteHealth
  fetchCount : Nat
  statCount : Nat
  listCount : Nat
deriving DecidableEq

/-- `JCSFs.__getSFTPClient`: return the cached handle, or connect and
cache one.  Connecting fails according to the state's health. -/
def getSFTPClient (s : SysState) : Except FsError SysState :=
  match s.sftp with
  | some _ => .ok s
  | none =>
    match s.health with
    | .ok => .ok { s with sftp := some () }
    | .connFail => .error .connError
    | .sshFail => .error .sshError

/-- `sftp.lstat(p)`: stat the remote node at `p`.  A missing remote object
raises `IOError`; a broken connection raises an `OSError`;
an SSH-level failure raises `SSHException`. -/
def sftpLstat (s : SysState) (p : String) : Except FsError (Attributes × SysState) :=
  match s.health with
  | .connFail => .error .connError
  | .sshFail => .error .sshError
  | .ok =>
    match s.remoteFS.lookup p with
    | some n => .ok (attrsOf n, { s with statCount := s.statCount + 1 })
    | none => .error .remoteIOError

/-- `sftp.listdir(p)`: list the remote directory at `p`. -/
def sftpListdir (s : SysState) (p : String) : Except FsError (List String × SysState) :=
  match s.health with
  | .connFail => .error .connError
  | .sshFail => .error .sshError
  | .ok =>
    match s.remoteFS.lookup p with
    | some (Node.dir _) => .ok (s.remoteFS.listdir p, { s with listCount := s.listCount + 1 })
    | _ => .error .remoteIOError

/-- `sftp.put(src, dst)`: paramiko's UPLOAD primitive.  It opens `src` on
the LOCAL filesystem for reading (raising `FileNotFoundError` when absent
and `IsADirectoryError` when a directory, both before any network
traffic), then opens `dst` on the REMOTE filesystem for writing — which
raises `IOError` when the destination's parent directory does not exist
on the remote side (SFTP open does not create missing directories) or
when `dst` itself is an existing remote directory — and only then copies
the content across. -/
def sftpPut (s : SysState) (src dst : String) : Except FsError SysState :=
  match s.localFS.lookup src with
  | some (Node.file c _) =>
    match s.health with
    | .ok =>
      if (dirname dst = "" ∨ s.remoteFS.isDirAt (dirname dst)) ∧
          ¬(s.remoteFS.isDirAt dst) then
        .ok { s with remoteFS := s.remoteFS.setFile dst c (mkFileAttrs c),
                     fetchCount := s.fetchCount + 1 }
      else .error .remoteIOError
    | .connFail => .error .connError
    | .sshFail => .error .sshError
  | some (Node.dir _) => .error .localIOError
  | none => .error .localIOError

/-- `JCSFs.__downloadFileIfNotExists` (the spec's `ensureCached`):
return at once when the local path exists; otherwise create the missing
parent directories, obtain the SFTP client, and run
`sftp.put(remote_path, local_path)` exactly as the source does —
note the argument order: `put` uploads its first argument, read from the
local filesystem, to its second argument on the remote filesystem. -/
def downloadFileIfNotExists (cfg : Config) (s : SysState) (path : String) :
    Except FsError SysState :=
  let local_path := getLocalPath cfg path
  if s.localFS.pathExists local_path then .ok s
  else
    let remote_path := getPath cfg path
    let local_dir_name := dirname local_path
    let s1 := if s.localFS.pathExists local_dir_name then s
              else { s with localFS := s.localFS.makedirs local_dir_name }
    match getSFTPClient s1 with
    | .error e => .error e
    | .ok s2 => sftpPut s2 remote_path local_path

/-- `JCSFs.destroy`: `self.sftp.close()` then `self.client.close()`.
When no operation ever connected, `self.sftp` is still `None` and
`None.close()` raises `AttributeError`. -/
def destroy (s : SysState) : Except FsError SysState :=
  match s.sftp with
  | none => .error .attributeError
  | some _ => .ok { s with sftp := none }

/-- `JCSFs.getattr`: local `lstat` when the local path exists, otherwise a
remote `lstat` inside `try ... except IOError: raise FuseOSError(ENOENT)`
— so every `IOError`/`OSError` from connecting or statting becomes
ENOENT, while a non-`OSError` exception propagates unchanged. -/
def getattr (cfg : Config) (s : SysState) (path : String) :
    Except FsError (Attributes × SysState) :=
  if s.localFS.pathExists (getLocalPath cfg path) then
    match s.localFS.lstat (getLocalPath cfg path) with
    | some a => .ok (a, s)
    | none => .error .localIOError
  else
    match getSFTPClient s with
    | .error e => if e.isIOError then .error .enoent else .error e
    | .ok s1 =>
      match sftpLstat s1 (getPath cfg path) with
      | .ok r => .ok r
      | .error e => if e.isIOError then .error .enoent else .error e

/-- `JCSFs.readdir`: start from `['.', '..']`, add the local listing when
the local path exists, then always query the remote listing and return
`list(set(...))` (modelled as `List.dedup`). -/
def readdir (cfg : Config) (s : SysState) (path : String) :
    Except FsError (List String × SysState) :=
  let lp := getLocalPath cfg path
  let step1 : Except FsError (List String) :=
    if s.localFS.pathExists lp then
      match s.localFS.lookup lp with
      | some (Node.dir _) => .ok ([".", ".."] ++ s.localFS.listdir lp)
      | _ => .error .localIOError
    else .ok [".", ".."]
  match step1 with
  | .error e => .error e
  | .ok files =>
    match getSFTPClient s with
    | .error e => .error e
    | .ok s1 =>
      match sftpListdir s1 (getPath cfg path) with
      | .error e => .error e
      | .ok (remote, s2) => .ok ((files ++ remote).dedup, s2)

/-- `JCSFs.write`: ensure-cache, then `open(local, "a+b")`.  Mode `"a"`
creates the file when missing and sets `O_APPEND`, under which every
write lands at the current end of file; the `f.seek(offset, 0)` moves
only the read position, so `offset` does not influence where the data
goes.  Returns `len(data)`. -/
def write (cfg : Config) (s : SysState) (path : String) (data : List Nat) (offset : Nat) :
    Except FsError (Nat × SysState) :=
  match downloadFileIfNotExists cfg s path with
  | .error e => .error e
  | .ok s1 =>
    let lp := getLocalPath cfg path
    match s1.localFS.lookup lp with
    | some (Node.dir _) => .error .localIOError
    | some (Node.file c a) =>
      let nc := c ++ data
      .ok (data.length,
           { s1 with localFS := s1.localFS.setFile lp nc { a with st_size := nc.length } })
    | none =>
      .ok (data.length,
           { s1 with localFS := s1.localFS.setFile lp data (mkFileAttrs data) })

/-- `JCSFs.unlink`: `os.unlink(self.__getLocalPath(path))` and nothing
else — no ensure-cache step, no remote call.  `os.unlink` raises
`FileNotFoundError` on a missing path and `IsADirectoryError` (or
`PermissionError`) on a directory. -/
def unlink (cfg : Config) (s : SysState) (path : String) : Except FsError SysState :=
  let lp := getLocalPath cfg path
  match s.localFS.lookup lp with
  | some (Node.file _ _) => .ok { s with localFS := s.localFS.remove lp }
  | some (Node.dir _) => .error .localIOError
  | none => .error .localIOError

/-! ### Helper lemmas about the model -/

/-- Whether an `Option Node` holds a regular file. -/
def isFileNode : Option Node → Bool
  | some (Node.file _ _) => true
  | _ => false

theorem lookup_cons (q : String) (n : Node) (l : List (String × Node)) (p : String) :
    FileSystem.lookup ⟨(q, n) :: l⟩ p = if q = p then some n else FileSystem.lookup ⟨l⟩ p := by
  by_cases h : q = p
  · simp [FileSystem.lookup, List.find?, h]
  · have hb : (q == p) = false := beq_eq_false_iff_ne.mpr h
    simp [FileSystem.lookup, List.find?, hb, h]

theorem lookup_none_of_not_pathExists (fs : FileSystem) (p : String)
    (h : fs.pathExists p = false) : fs.lookup p = none := by
  unfold FileSystem.pathExists at h
  cases hl : fs.lookup p with
  | none => rfl
  | some n => rw [hl] at h; simp at h

theorem isFileNode_mkdirAt (fs : FileSystem) (q p : String) :
    isFileNode ((fs.mkdirAt q).lookup p) = isFileNode (fs.lookup p) := by
  unfold FileSystem.mkdirAt
  cases hq : fs.pathExists q with
  | true => simp
  | false =>
    simp only [Bool.false_eq_true, if_false]
    rw [lookup_cons]
    by_cases hp : q = p
    · subst hp
      rw [lookup_none_of_not_pathExists fs q hq]
      simp [isFileNode]
    · simp [hp]

theorem isFileNode_mkdirsAux (n : Nat) (fs : FileSystem) (d p : String) :
    isFileNode ((mkdirsAux n fs d).lookup p) = isFileNode (fs.lookup p) := by
  induction n generalizing fs d with
  | zero => rfl
  | succ n ih =>
    unfold mkdirsAux
    by_cases h : d = ""
    · simp [h]
    · simp only [h, if_false]
      rw [ih, isFileNode_mkdirAt]

theorem isFileNode_makedirs (fs : FileSystem) (d p : String) :
    isFileNode ((fs.makedirs d).lookup p) = isFileNode (fs.lookup p) :=
  isFileNode_mkdirsAux _ fs d p

theorem getSFTPClient_localFS (s s' : SysState) (h : getSFTPClient s = Except.ok s') :
    s'.localFS = s.localFS := by
  unfold getSFTPClient at h
  cases hs : s.sftp with
  | some u => rw [hs] at h; cases h; rfl
  | none =>
    rw [hs] at h
    cases hh : s.health <;> rw [hh] at h <;> cases h <;> rfl

theorem sftpPut_not_file (s : SysState) (src dst : String)
    (h : isFileNode (s.localFS.lookup src) = false) :
    sftpPut s src dst = Except.error FsError.localIOError := by
  unfold sftpPut
  cases hl : s.localFS.lookup src with
  | none => rfl
  | some n =>
    cases n with
    | file c a => rw [hl] at h; simp [isFileNode] at h
    | dir a => rfl

/-! ### Concrete configurations and states used as inputs -/

/-- Cache root `cache`, remote root `""` (no `path` key in the ssh config). -/
def cfgEx : Config := ⟨"cache", ""⟩

/-- The remote store holds `a.txt` with bytes `[1, 2, 3]`; nothing is
cached locally; no SFTP session yet; remote calls succeed. -/
def stRemoteOnly : SysState :=
  ⟨⟨[]⟩, ⟨[("a.txt", Node.file [1, 2, 3] (mkFileAttrs [1, 2, 3]))]⟩,
   none, RemoteHealth.ok, 0, 0, 0⟩

/-- A file named like the computed remote path (`a.txt`) happens to exist on
the LOCAL machine (outside the cache directory), so `sftp.put` finds a
source to upload, and the REMOTE store happens to contain a directory named
`cache`, so the upload's destination `cache/a.txt` can be opened remotely
and the misdirected transfer completes; the local cache itself is empty. -/
def stLocalSource : SysState :=
  ⟨⟨[("a.txt", Node.file [7, 7] (mkFileAttrs [7, 7]))]⟩,
   ⟨[("cache", Node.dir defaultDirAttrs)]⟩,
   none, RemoteHealth.ok, 0, 0, 0⟩

/-- A 100-byte file (bytes all `5`) exists only remotely. -/
def stHundredRemote : SysState :=
  ⟨⟨[]⟩,
   ⟨[("a.txt", Node.file (List.replicate 100 5) (mkFileAttrs (List.replicate 100 5)))]⟩,
   none, RemoteHealth.ok, 0, 0, 0⟩

/-- A 100-byte file (bytes all `5`) already present in the local cache. -/
def stHundredCached : SysState :=
  ⟨⟨[("cache", Node.dir defaultDirAttrs),
     ("cache/a.txt", Node.file (List.replicate 100 5) (mkFileAttrs (List.replicate 100 5)))]⟩,
   ⟨[]⟩, none, RemoteHealth.ok, 0, 0, 0⟩

/-- Nothing cached locally, the remote object EXISTS, but the connection is
broken: every remote call raises a connection-level `OSError`. -/
def stConnBroken : SysState :=
  ⟨⟨[]⟩, ⟨[("a.txt", Node.file [1] (mkFileAttrs [1]))]⟩,
   none, RemoteHealth.connFail, 0, 0, 0⟩

/-- Nothing cached locally and remote calls fail with `SSHException`. -/
def stSshBroken : SysState :=
  ⟨⟨[]⟩, ⟨[("a.txt", Node.file [1] (mkFileAttrs [1]))]⟩,
   none, RemoteHealth.sshFail, 0, 0, 0⟩

/-- Nothing cached locally and the remote object is absent as well. -/
def stBothAbsent : SysState :=
  ⟨⟨[]⟩, ⟨[]⟩, none, RemoteHealth.ok, 0, 0, 0⟩

/-! ### Claim theorems -/

/-- Claim C1 (refuted, code bug): after `__downloadFileIfNotExists` the local
cache path is supposed to hold the remote object's content.  In fact the
method calls `sftp.put(remote_path, local_path)` — paramiko's `put` is the
UPLOAD primitive, whose first argument is read from the local filesystem —
instead of `sftp.get`.  On a file that exists only remotely the call raises
`FileNotFoundError` while opening the upload source; and when a local file
happens to sit at the remote path (and the remote store happens to hold a
directory named like the cache root, so the upload's destination can be
opened), the call "succeeds" by uploading that file to the remote store,
still leaving the local cache path `cache/a.txt` absent. -/
theorem download_never_populates_cache :
    downloadFileIfNotExists cfgEx stRemoteOnly "/a.txt" = Except.error FsError.localIOError ∧
    (downloadFileIfNotExists cfgEx stLocalSource "/a.txt").map
      (fun s => (s.localFS.pathExists "cache/a.txt", s.remoteFS.pathExists "cache/a.txt",
                 s.fetchCount))
      = Except.ok (false, true, 1) :=
  ⟨by decide, by decide⟩

/-- Claim C2 (refuted, code bug): writing 3 bytes at offset 0 to a 100-byte
remote-only file is supposed to yield a 100-byte local file with only the
first 3 bytes changed.  In fact (a) the ensure-cached step fails outright
because `sftp.put` uploads instead of downloading, so `write` on a
remote-only file raises; and (b) even on a file already cached locally,
`open(local, "a+b")` sets `O_APPEND`, so the 3 bytes are appended at the
end, producing a 103-byte file — not the content the claim requires. -/
theorem write_at_offset_broken :
    write cfgEx stHundredRemote "/a.txt" [9, 9, 9] 0 = Except.error FsError.localIOError ∧
    (write cfgEx stHundredCached "/a.txt" [9, 9, 9] 0).map
      (fun r => r.2.localFS.lookupContent "cache/a.txt")
      = Except.ok (some (List.replicate 100 5 ++ [9, 9, 9])) ∧
    (write cfgEx stHundredCached "/a.txt" [9, 9, 9] 0).map
      (fun r => r.2.localFS.lookupContent "cache/a.txt")
      ≠ Except.ok (some ([9, 9, 9] ++ List.replicate 97 5)) :=
  ⟨by decide, by decide, by decide⟩

/-- Claim C3, counterexample: with no local cache entry and a broken
connection (remote calls raise connection-level `OSError`s — which Python 3
spells `IOError` as well), `getattr` is claimed to surface a distinct
ConnectionError-style failure and NOT the ENOENT signal.  In fact its
`except IOError: raise FuseOSError(ENOENT)` catches the connection failure
and returns ENOENT, even though the remote object exists. -/
theorem getattr_conn_failure_maps_to_enoent :
    getattr cfgEx stConnBroken "/a.txt" = Except.error FsError.enoent ∧
    stConnBroken.remoteFS.pathExists (getPath cfgEx "/a.txt") = true :=
  ⟨by decide, by decide⟩

/-- Claim C4, counterexample: with no local cache entry and no remote object,
`__downloadFileIfNotExists` is claimed to return successfully without
creating anything.  In fact it raises: `sftp.put(remote_path, local_path)`
opens `remote_path` on the local filesystem as the upload source, and no
such file exists, so the call fails with `FileNotFoundError`. -/
theorem download_remote_absent_raises :
    downloadFileIfNotExists cfgEx stBothAbsent "/a.txt" = Except.error FsError.localIOError := by
  decide

/-- Claim C6 (refuted, code bug): two sequential `__downloadFileIfNotExists`
calls are supposed to perform exactly one remote fetch, because the first
call populates the local cache path.  Since `sftp.put` uploads instead of
downloading, the local cache path is never created — even when the transfer
itself completes, as it does at `stLocalSource` where its source file and
its remote destination directory both exist — so the `os.path.exists`
guard never fires, and the second call performs a second transfer: after two
calls the transfer counter is 2 and `cache/a.txt` still does not exist. -/
theorem download_twice_fetches_twice :
    ((downloadFileIfNotExists cfgEx stLocalSource "/a.txt").bind
      (fun s1 => downloadFileIfNotExists cfgEx s1 "/a.txt")).map
      (fun s2 => (s2.fetchCount, s2.localFS.pathExists "cache/a.txt"))
      = Except.ok (2, false) := by
  decide

/-- Claim C3, amended: for a path with no local cache entry, ANY
`IOError`/`OSError` raised while reaching the remote store — genuine object
absence and connection-level failure alike — is mapped to the single ENOENT
signal by `except IOError: raise FuseOSError(ENOENT)`; only exceptions that
are not `IOError`s (e.g. `paramiko.SSHException`) propagate distinctly. -/
theorem getattr_collapses_ioerrors (cfg : Config) (s : SysState) (path : String)
    (h : s.localFS.pathExists (getLocalPath cfg path) = false) :
    (s.health = RemoteHealth.connFail → getattr cfg s path = Except.error FsError.enoent) ∧
    (s.health = RemoteHealth.ok → s.remoteFS.lookup (getPath cfg path) = none →
      getattr cfg s path = Except.error FsError.enoent) ∧
    (s.health = RemoteHealth.sshFail → getattr cfg s path = Except.error FsError.sshError) := by
  refine ⟨fun hh => ?_, fun hh hr => ?_, fun hh => ?_⟩
  · cases hs : s.sftp <;>
      simp [getattr, getSFTPClient, sftpLstat, h, hs, hh, FsError.isIOError]
  · cases hs : s.sftp <;>
      simp [getattr, getSFTPClient, sftpLstat, h, hs, hh, hr, FsError.isIOError]
  · cases hs : s.sftp <;>
      simp [getattr, getSFTPClient, sftpLstat, h, hs, hh, FsError.isIOError]

/-- Witness for `getattr_collapses_ioerrors`: on the concrete broken-connection
state the result is ENOENT, and on the SSH-failure state the `SSHException`
propagates. -/
theorem getattr_collapses_ioerrors_witness :
    getattr cfgEx stConnBroken "/a.txt" = Except.error FsError.enoent ∧
    getattr cfgEx stSshBroken "/a.txt" = Except.error FsError.sshError :=
  ⟨(getattr_collapses_ioerrors cfgEx stConnBroken "/a.txt" (by decide)).1 rfl,
   (getattr_collapses_ioerrors cfgEx stSshBroken "/a.txt" (by decide)).2.2 rfl⟩

/-- Claim C4, amended: for a path with no local cache entry, when no regular
file sits at the computed remote path on the LOCAL filesystem (in
particular whenever the remote object is absent), `__downloadFileIfNotExists`
raises an error instead of returning successfully, because
`sftp.put(remote_path, local_path)` fails to open its upload source
(or the session cannot be obtained).  Whether the REMOTE object exists is
never even consulted. -/
theorem download_raises_without_local_source (cfg : Config) (s : SysState) (path : String)
    (h1 : s.localFS.pathExists (getLocalPath cfg path) = false)
    (h2 : isFileNode (s.localFS.lookup (getPath cfg path)) = false)
    (h3 : s.remoteFS.pathExists (getPath cfg path) = false) :
    ∃ e, downloadFileIfNotExists cfg s path = Except.error e := by
  unfold downloadFileIfNotExists
  simp only [h1, Bool.false_eq_true, if_false]
  set s1 := (if s.localFS.pathExists (dirname (getLocalPath cfg path)) then s
             else { s with localFS := s.localFS.makedirs (dirname (getLocalPath cfg path)) })
    with hs1
  have hfile : isFileNode (s1.localFS.lookup (getPath cfg path)) = false := by
    rw [hs1]
    by_cases hd : s.localFS.pathExists (dirname (getLocalPath cfg path))
    · simp [hd, h2]
    · simp [hd, isFileNode_makedirs, h2]
  cases hc : getSFTPClient s1 with
  | error e => exact ⟨e, rfl⟩
  | ok s2 =>
    exact ⟨FsError.localIOError,
      sftpPut_not_file s2 _ _ (by rw [getSFTPClient_localFS s1 s2 hc]; exact hfile)⟩

/-- Witness for `download_raises_without_local_source`: the concrete state
with an empty cache and an absent remote object. -/
theorem download_raises_without_local_source_witness :
    ∃ e, downloadFileIfNotExists cfgEx stBothAbsent "/a.txt" = Except.error e :=
  download_raises_without_local_source cfgEx stBothAbsent "/a.txt"
    (by decide) (by decide) (by decide)

/-- Claim C5 (confirmed): whenever the local cache path exists, `getattr`
returns the metadata of the local node and leaves the state untouched — no
SFTP session is opened, no remote stat is issued and no counter moves,
whatever the remote filesystem holds. -/
theorem getattr_local_authoritative (cfg : Config) (s : SysState) (path : String) (n : Node)
    (h : s.localFS.lookup (getLocalPath cfg path) = some n) :
    getattr cfg s path = Except.ok (attrsOf n, s) := by
  have hp : s.localFS.pathExists (getLocalPath cfg path) = true := by
    unfold FileSystem.pathExists
    rw [h]
    rfl
  unfold getattr
  simp [hp, FileSystem.lstat, h]

/-- Local stat data that differs from what the remote holds for the same
virtual path. -/
def attrsLocalW : Attributes := ⟨1, 2, 33188, 4, 1, 6⟩

/-- The local cache holds `cache/f` (1 byte, attributes `attrsLocalW`) while
the remote `f` is a 2-byte file with different attributes. -/
def stC5 : SysState :=
  ⟨⟨[("cache/f", Node.file [1] attrsLocalW)]⟩,
   ⟨[("f", Node.file [1, 2] (mkFileAttrs [1, 2]))]⟩, none, RemoteHealth.ok, 0, 0, 0⟩

/-- Witness for `getattr_local_authoritative`: local metadata is returned
unchanged even though the remote metadata for the same virtual path differs. -/
theorem getattr_local_authoritative_witness :
    getattr cfgEx stC5 "/f" = Except.ok (attrsLocalW, stC5) ∧
    stC5.remoteFS.lstat (getPath cfgEx "/f") ≠ some attrsLocalW :=
  ⟨getattr_local_authoritative cfgEx stC5 "/f" (Node.file [1] attrsLocalW) (by decide),
   by decide⟩

/-- Claim C9 (confirmed): `unlink` touches only the local cache path: when it
does not exist the call raises a local filesystem error (no ensure-cache
step, no remote fallback, whatever the remote filesystem holds), and no
successful `unlink` ever changes the remote filesystem, the session handle
or any remote-operation counter. -/
theorem unlink_local_only (cfg : Config) (s : SysState) (path : String)
    (h : s.localFS.pathExists (getLocalPath cfg path) = false) :
    unlink cfg s path = Except.error FsError.localIOError ∧
    ∀ t t' : SysState, unlink cfg t path = Except.ok t' →
      t'.remoteFS = t.remoteFS ∧ t'.sftp = t.sftp ∧ t'.fetchCount = t.fetchCount ∧
      t'.statCount = t.statCount ∧ t'.listCount = t.listCount := by
  constructor
  · simp only [unlink]
    rw [lookup_none_of_not_pathExists _ _ h]
  · intro t t' ht
    simp only [unlink] at ht
    cases hl : t.localFS.lookup (getLocalPath cfg path) with
    | none => rw [hl] at ht; cases ht
    | some n =>
      cases n with
      | file c a => rw [hl] at ht; cases ht; exact ⟨rfl, rfl, rfl, rfl, rfl⟩
      | dir a => rw [hl] at ht; cases ht

/-- Cache empty, but the remote store has an object at `f`. -/
def stC9 : SysState :=
  ⟨⟨[]⟩, ⟨[("f", Node.file [1] (mkFileAttrs [1]))]⟩, none, RemoteHealth.ok, 0, 0, 0⟩

/-- Witness for `unlink_local_only`: unlinking an uncached path raises even
though a remote object exists there. -/
theorem unlink_local_only_witness :
    unlink cfgEx stC9 "/f" = Except.error FsError.localIOError ∧
    stC9.remoteFS.pathExists (getPath cfgEx "/f") = true :=
  ⟨(unlink_local_only cfgEx stC9 "/f" (by decide)).1, by decide⟩

/-- Claim C10 (confirmed): `destroy` runs `self.sftp.close()`; when no
operation ever connected, `self.sftp` is still `None` and the call raises
`AttributeError`; `destroy` completes without error exactly when a session
was previously established. -/
theorem destroy_requires_established_session (s : SysState) :
    (s.sftp = none → destroy s = Except.error FsError.attributeError) ∧
    ((∃ s', destroy s = Except.ok s') ↔ s.sftp.isSome = true) := by
  refine ⟨fun h => by unfold destroy; rw [h], ?_, ?_⟩
  · rintro ⟨s', hs⟩
    unfold destroy at hs
    cases h : s.sftp with
    | none => rw [h] at hs; cases hs
    | some u => rfl
  · intro h
    cases hh : s.sftp with
    | none => rw [hh] at h; cases h
    | some u => exact ⟨{ s with sftp := none }, by unfold destroy; rw [hh]⟩

/-- Claim C7 (confirmed): when the remote directory can be listed, `readdir`
returns a duplicate-free list containing `.` and `..` whose members are
exactly the union of the local directory's entries (when the local directory
exists) and the remote directory's entries; the remote listing is queried on
this call (the listdir counter advances) and nothing is cached (the local
and remote filesystems are unchanged). -/
theorem readdir_merges_local_remote (cfg : Config) (s : SysState) (path : String)
    (ra : Attributes)
    (h1 : s.health = RemoteHealth.ok)
    (h2 : s.remoteFS.lookup (getPath cfg path) = some (Node.dir ra))
    (h3 : s.localFS.pathExists (getLocalPath cfg path) = false ∨
          ∃ la, s.localFS.lookup (getLocalPath cfg path) = some (Node.dir la)) :
    ∃ es s', readdir cfg s path = Except.ok (es, s') ∧ es.Nodup ∧
      s'.listCount = s.listCount + 1 ∧ s'.localFS = s.localFS ∧ s'.remoteFS = s.remoteFS ∧
      ∀ x, x ∈ es ↔ (x = "." ∨ x = ".." ∨
        (s.localFS.pathExists (getLocalPath cfg path) = true ∧
          x ∈ s.localFS.listdir (getLocalPath cfg path)) ∨
        x ∈ s.remoteFS.listdir (getPath cfg path)) := by
  have hsess : ∃ s1, getSFTPClient s = Except.ok s1 ∧ s1.localFS = s.localFS ∧
      s1.remoteFS = s.remoteFS ∧ s1.health = s.health ∧ s1.listCount = s.listCount := by
    cases hs : s.sftp with
    | some u => exact ⟨s, by simp [getSFTPClient, hs], rfl, rfl, rfl, rfl⟩
    | none =>
      exact ⟨{ s with sftp := some () }, by simp [getSFTPClient, hs, h1], rfl, rfl, rfl, rfl⟩
  obtain ⟨s1, hg, e1, e2, e3, e4⟩ := hsess
  have hlist : sftpListdir s1 (getPath cfg path) =
      Except.ok (s.remoteFS.listdir (getPath cfg path),
                 { s1 with listCount := s1.listCount + 1 }) := by
    simp only [sftpListdir, e3, h1, e2, h2]
  rcases h3 with h3 | ⟨la, hlook⟩
  · refine ⟨([".", ".."] ++ s.remoteFS.listdir (getPath cfg path)).dedup,
      { s1 with listCount := s1.listCount + 1 }, ?_, List.nodup_dedup _,
      by simp [e4], by simp [e1], by simp [e2], ?_⟩
    · simp [readdir, h3, hg, hlist]
    · intro x
      simp only [List.mem_dedup, List.mem_append, List.mem_cons, List.not_mem_nil, or_false,
        h3, Bool.false_eq_true, false_and, false_or]
      tauto
  · have hp : s.localFS.pathExists (getLocalPath cfg path) = true := by
      unfold FileSystem.pathExists
      rw [hlook]
      rfl
    refine ⟨(([".", ".."] ++ s.localFS.listdir (getLocalPath cfg path)) ++
        s.remoteFS.listdir (getPath cfg path)).dedup,
      { s1 with listCount := s1.listCount + 1 }, ?_, List.nodup_dedup _,
      by simp [e4], by simp [e1], by simp [e2], ?_⟩
    · simp [readdir, hp, hlook, hg, hlist]
    · intro x
      simp only [List.mem_dedup, List.mem_append, List.mem_cons, List.not_mem_nil, or_false,
        hp, true_and]
      tauto

/-- Local cache: directory `cache/a` containing `x`; remote: directory `a`
containing `x` and `y`. -/
def stListMerge : SysState :=
  ⟨⟨[("cache", Node.dir defaultDirAttrs), ("cache/a", Node.dir defaultDirAttrs),
     ("cache/a/x", Node.file [1] (mkFileAttrs [1]))]⟩,
   ⟨[("a", Node.dir defaultDirAttrs), ("a/x", Node.file [1] (mkFileAttrs [1])),
     ("a/y", Node.file [2] (mkFileAttrs [2]))]⟩,
   none, RemoteHealth.ok, 0, 0, 0⟩

/-- Witness for `readdir_merges_local_remote`: with local entries `{x}` and
remote entries `{x, y}`, the merged listing holds `.`, `..`, `x` and `y`,
once each. -/
theorem readdir_merges_local_remote_witness :
    ∃ es s', readdir cfgEx stListMerge "/a" = Except.ok (es, s') ∧ es.Nodup ∧
      "." ∈ es ∧ ".." ∈ es ∧ "x" ∈ es ∧ "y" ∈ es := by
  obtain ⟨es, s', hr, hn, _, _, _, hm⟩ :=
    readdir_merges_local_remote cfgEx stListMerge "/a" defaultDirAttrs rfl (by decide)
      (Or.inr ⟨defaultDirAttrs, by decide⟩)
  exact ⟨es, s', hr, hn, (hm ".").mpr (Or.inl rfl), (hm "..").mpr (Or.inr (Or.inl rfl)),
    (hm "x").mpr (Or.inr (Or.inr (Or.inr (by decide)))),
    (hm "y").mpr (Or.inr (Or.inr (Or.inr (by decide))))⟩

/-- A mount on which no operation ever reached the remote store. -/
def stNeverConnected : SysState :=
  ⟨⟨[]⟩, ⟨[]⟩, none, RemoteHealth.ok, 0, 0, 0⟩

/-- A mount whose session has been established. -/
def stConnected : SysState :=
  ⟨⟨[]⟩, ⟨[]⟩, some (), RemoteHealth.ok, 0, 0, 0⟩

/-- Witness for `destroy_requires_established_session`: unmounting a mount
that never connected raises `AttributeError`; with a session it succeeds. -/
theorem destroy_requires_established_session_witness :
    destroy stNeverConnected = Except.error FsError.attributeError ∧
    (∃ s', destroy stConnected = Except.ok s') :=
  ⟨(destroy_requires_established_session stNeverConnected).1 rfl,
   (destroy_requires_established_session stConnected).2.mpr rfl⟩

end JCSFs
